import Mathlib

/-!
Shallow embedding of `src/daemon/src/controllers/launchpad_mini_mk3.rs` from
lvkdotsh/launchpi: the LaunchpadMiniMk3 controller, its input-loop event
translation, output palette mapping, event-bus publishing, and the script
runner loop, together with theorems settling the spec claims about them.

All `u8` quantities of the Rust code are embedded as `Nat`, with wrap-around
written explicitly as `% 256` where the code performs `u8` arithmetic and with
range hypotheses where a theorem quantifies over the `u8` domain.
-/

namespace Launchpi

/-- Modelled from the spec: the normalized event vocabulary `ControllerEvent` is
declared in `controllers/mod.rs`, which is not among the provided sources; its
variants and payloads are fixed by spec section 3 and by every construction site
in `launchpad_mini_mk3.rs` (Press, Release, ClearBoard, LightUpdate, and the
reserved Heartbeat). -/
inductive ControllerEvent where
  | press (x y : Nat)
  | release (x y : Nat)
  | clearBoard
  | lightUpdate (updates : List (Nat × Nat × Nat))
  | heartbeat
deriving DecidableEq, Repr

/-- Button vocabulary of the external launchy driver as used by the daemon:
grid buttons carry native coordinates, control buttons a single index. -/
inductive Button where
  | gridButton (x y : Nat)
  | controlButton (index : Nat)
deriving DecidableEq, Repr

/-- Raw launchy messages polled by the input loop; `other` stands for every
message kind outside press and release, matched by the catch-all arm at line
116 of `launchpad_mini_mk3.rs`. -/
inductive MidiMessage where
  | press (button : Button)
  | release (button : Button)
  | other
deriving DecidableEq, Repr

/-- Control-button index translation of the input loop (lines 85-88, repeated
verbatim for Release at lines 106-109): indices 0..=7 map to `(index, 0)`,
indices 8..=u8::MAX map to `(8, index - 7)`; the `u8` subtraction cannot
underflow because that arm only matches indices that are at least 8. -/
def controlTranslate (index : Nat) : Nat × Nat :=
  if index ≤ 7 then (index, 0) else (8, index - 7)

/-- Hardware-to-normalized translation performed by one input-loop iteration on
a received message (lines 74-117): grid buttons are shifted to `y + 1` (a `u8`
addition, embedded modulo 256), control buttons go through `controlTranslate`,
and the same translation is used for Press and Release; message kinds other
than press and release produce no event. -/
def translateMessage : MidiMessage → Option ControllerEvent
  | .press (.gridButton x y) => some (.press x ((y + 1) % 256))
  | .press (.controlButton index) =>
      some (.press (controlTranslate index).1 (controlTranslate index).2)
  | .release (.gridButton x y) => some (.release x ((y + 1) % 256))
  | .release (.controlButton index) =>
      some (.release (controlTranslate index).1 (controlTranslate index).2)
  | .other => none

/-- The named palette constants of the external launchy driver that the daemon
uses; in the driver they are distinct device palette values. -/
inductive PaletteColor where
  | black
  | white
  | red
  | yellow
  | blue
  | magenta
  | brown
  | cyan
  | green
deriving DecidableEq, Repr

/-- Logical color index to device color (the `match color` of
`set_button_color_multi`, lines 165-178): 0 is off, 1..=8 are named colors,
every other index falls through the wildcard arm to black. -/
def toDeviceColor (color : Nat) : PaletteColor :=
  match color with
  | 0 => .black
  | 1 => .white
  | 2 => .red
  | 3 => .yellow
  | 4 => .blue
  | 5 => .magenta
  | 6 => .brown
  | 7 => .cyan
  | 8 => .green
  | _ => .black

/-- Normalized-to-hardware button translation of the output path (lines
180-184): row 0 addresses the control button with index x, every other row y
addresses grid button `(x, y - 1)` (a `u8` subtraction; y is nonzero on that
branch). -/
def buttonForOutput (x y : Nat) : Button :=
  if y = 0 then .controlButton x else .gridButton x (y - 1)

/-- One observable action of the `set_button_color_multi` body: publishing an
event on the broadcast channel, or lighting one device button. -/
inductive OutAction where
  | publish (e : ControllerEvent)
  | light (button : Button) (color : PaletteColor)
deriving DecidableEq, Repr

/-- The device action performed for one `(x, y, color)` entry of the update
list (lines 164-186): translate the color through the palette match and the
coordinate through the output button translation, then light that button. -/
def lightAction (u : Nat × Nat × Nat) : OutAction :=
  .light (buttonForOutput u.1 u.2.1) (toDeviceColor u.2.2)

/-- Action trace of `set_button_color_multi(updates)` (lines 153-194): first
one `LightUpdate` event carrying the whole update list is sent on the
broadcast channel, then each update is applied to the device in list order. -/
def setButtonColorMultiTrace (updates : List (Nat × Nat × Nat)) : List OutAction :=
  OutAction.publish (.lightUpdate updates) :: updates.map lightAction

/-- `set_button_color(x, y, color)` (lines 196-198) delegates to
`set_button_color_multi` with the singleton update list. -/
def setButtonColorTrace (x y color : Nat) : List OutAction :=
  setButtonColorMultiTrace [(x, y, color)]

def isPublish : OutAction → Bool
  | .publish _ => true
  | .light _ _ => false

def isLight : OutAction → Bool
  | .publish _ => false
  | .light _ _ => true

/-- The event bus: the tokio broadcast channel created in `guess` (line 28).
`history` is the sequence of events sent on it, oldest first. The bounded
capacity (10) only matters for lag, which none of the finite scenarios below
reaches. -/
structure EventBus where
  history : List ControllerEvent
deriving DecidableEq, Repr

/-- Sending one event on the broadcast channel appends it to the history. -/
def EventBus.send (bus : EventBus) (e : ControllerEvent) : EventBus :=
  { history := bus.history ++ [e] }

/-- `get_event_receiver` (lines 135-147) returns `event_receiver.resubscribe()`.
A tokio broadcast receiver obtained by resubscribe starts at the current tail
of the channel: it observes exactly the events sent after its creation, none
sent before. The subscription is represented by its start position. -/
def EventBus.subscribePos (bus : EventBus) : Nat := bus.history.length

/-- The events a subscription created at position `pos` receives, in order. -/
def EventBus.receivedFrom (bus : EventBus) (pos : Nat) : List ControllerEvent :=
  bus.history.drop pos

/-- The event published by `clear()` (lines 124-133): one `ClearBoard`, sent
after the device clear succeeded. -/
def clearPublish (bus : EventBus) : EventBus := bus.send .clearBoard

/-- The event published by `set_button_color_multi(updates)` (lines 156-161):
one `LightUpdate` carrying the whole update list. -/
def multiPublish (bus : EventBus) (updates : List (Nat × Nat × Nat)) : EventBus :=
  bus.send (.lightUpdate updates)

/-- `set_button_color(x, y, color)` publishes through the multi variant with a
singleton list (lines 196-198). -/
def setButtonColorPublish (bus : EventBus) (x y color : Nat) : EventBus :=
  multiPublish bus [(x, y, color)]

/-- The launchy `MidiError` as far as this embedding needs it: some device
error value, treated as opaque by the daemon. -/
inductive MidiError where
  | deviceError
deriving DecidableEq, Repr

/-- Outcome of a Rust call that may panic: either a value is returned to the
caller or an `unwrap` panicked. -/
inductive CallOutcome (α : Type) where
  | returned (value : α)
  | panicked
deriving DecidableEq, Repr

/-- `initialize` (lines 53-122) as a function of the result of its device
clear: line 54 is `self.clear().unwrap()`, so a failing clear panics instead
of surfacing the error; on success the input loop is spawned (spawning cannot
fail) and `Ok(())` is returned immediately, without waiting for the loop. -/
def initController (clearResult : Except MidiError Unit) :
    CallOutcome (Except MidiError Unit) :=
  match clearResult with
  | .error _ => .panicked
  | .ok _ => .returned (.ok ())

/-- Result of one `try_recv` on the subscription inside the script runner loop
(lines 209-237): an event, or one of the three `TryRecvError` cases. -/
inductive PollResult where
  | ok (e : ControllerEvent)
  | empty
  | closed
  | lagged (n : Nat)
deriving DecidableEq, Repr

/-- A callback delivered to the script by the runner: `script.initialize`,
`script.on_press` or `script.on_release`. -/
inductive ScriptCall where
  | init
  | onPress (x y : Nat)
  | onRelease (x y : Nat)
deriving DecidableEq, Repr

/-- The script callbacks made by the runner loop (lines 208-241) over a finite
observation of poll results: Press dispatches `on_press`, Release dispatches
`on_release`, other events and Empty dispatch nothing, Closed breaks out of
the loop, and Lagged re-enters `run` (line 235), whose first action is to call
`script.initialize` again (line 204) and resubscribe (line 206) before
continuing with the remaining polls. An exhausted observation list cuts the
trace with the loop still running. -/
def runLoopCalls : List PollResult → List ScriptCall
  | [] => []
  | .ok (.press x y) :: rest => .onPress x y :: runLoopCalls rest
  | .ok (.release x y) :: rest => .onRelease x y :: runLoopCalls rest
  | .ok .clearBoard :: rest => runLoopCalls rest
  | .ok (.lightUpdate _) :: rest => runLoopCalls rest
  | .ok .heartbeat :: rest => runLoopCalls rest
  | .empty :: rest => runLoopCalls rest
  | .closed :: _ => []
  | .lagged _ :: rest => .init :: runLoopCalls rest

/-- The full callback trace of `run` (lines 203-244): `script.initialize` is
called once on entry (line 204), then the loop runs. -/
def runCalls (polls : List PollResult) : List ScriptCall :=
  .init :: runLoopCalls polls

/-- The value `run` returns over the observation: `some (Except.ok ())` once
the loop breaks on Closed (the `break` at line 230 falls through to `Ok(())`
at line 243); `none` when the observation ends with the loop still running.
Lagged recursion returns whatever the re-entered run returns. -/
def runResult : List PollResult → Option (Except MidiError Unit)
  | [] => none
  | .ok _ :: rest => runResult rest
  | .empty :: rest => runResult rest
  | .closed :: _ => some (.ok ())
  | .lagged _ :: rest => runResult rest

/-- Whether a poll result is the Lagged signal. -/
def isLagged : PollResult → Bool
  | .lagged _ => true
  | _ => false

/-- An observable action of the controller tasks, at the granularity needed to
talk about lock scoping: acquisitions and releases of the input-handle lock,
the output-handle lock and the sender lock, device I/O, channel sends, and
`awaitPoint` marking a suspension point (an `.await`) while a lock is live. -/
inductive LoopAction where
  | acquireInputLock
  | releaseInputLock
  | acquireOutputLock
  | releaseOutputLock
  | deviceClear
  | deviceLight (button : Button) (color : PaletteColor)
  | pollRead (message : Option MidiMessage)
  | acquireSenderLock
  | sendOnBus (e : ControllerEvent)
  | releaseSenderLock
  | awaitPoint
deriving DecidableEq, Repr

/-- Actions of one iteration of the input loop body (lines 64-118): one
`recv_timeout` poll; on timeout the iteration just continues, on a message the
sender lock is taken (line 73), the translated event (if any) is sent, and the
sender guard is dropped at the end of the iteration. The body contains no
`.await`. -/
def iterationActions (message : Option MidiMessage) : List LoopAction :=
  match message with
  | none => [.pollRead none]
  | some m =>
      .pollRead (some m) :: .acquireSenderLock ::
        ((translateMessage m).toList.map LoopAction.sendOnBus ++ [.releaseSenderLock])

/-- The input-loop iterations over a finite observation of poll outcomes. -/
def inputLoopBody : List (Option MidiMessage) → List LoopAction
  | [] => []
  | m :: rest => iterationActions m ++ inputLoopBody rest

/-- Action trace of the task spawned by `initialize` (lines 59-119): the input
handle is locked once, at line 62, before the while loop, and the guard is
never dropped while the loop runs. -/
def inputLoopTrace (polls : List (Option MidiMessage)) : List LoopAction :=
  LoopAction.acquireInputLock :: inputLoopBody polls

/-- Whether a loop action is a `recv_timeout` read of the input handle. -/
def isPollRead : LoopAction → Bool
  | .pollRead _ => true
  | _ => false

/-- Action trace of one `clear()` call (lines 124-133): the output-handle lock
is taken for the whole synchronous call, the device is cleared, `ClearBoard`
is sent under the sender lock, and both guards are released before the call
returns (the output guard last, at function end). No `.await` occurs. -/
def clearCallActions : List LoopAction :=
  [.acquireOutputLock, .deviceClear, .acquireSenderLock, .sendOnBus .clearBoard,
   .releaseSenderLock, .releaseOutputLock]

/-- The device action of one `(x, y, color)` update at the lock-trace
granularity: light the translated button with the translated color (lines
164-186). -/
def deviceLightAction (u : Nat × Nat × Nat) : LoopAction :=
  .deviceLight (buttonForOutput u.1 u.2.1) (toDeviceColor u.2.2)

/-- Action trace of one `set_button_color_multi(updates)` call (lines 153-194)
at lock granularity: the output-handle lock is taken first (lines 154-155),
the `LightUpdate` is sent under the sender lock (156-162) whose guard is
dropped explicitly, each update is then applied to the device in order, and
the output guard is released at function end, before the call returns. No
`.await` occurs; `set_button_color` (lines 196-198) delegates here with a
singleton list. -/
def multiCallActions (updates : List (Nat × Nat × Nat)) : List LoopAction :=
  [.acquireOutputLock, .acquireSenderLock, .sendOnBus (.lightUpdate updates),
    .releaseSenderLock] ++ updates.map deviceLightAction ++ [.releaseOutputLock]

/-- State of the tokio broadcast channel as needed for send: the number of
currently live receivers and the history of sent events. -/
structure BusState where
  receiverCount : Nat
  history : List ControllerEvent
deriving DecidableEq, Repr

/-- The error a tokio broadcast `Sender::send` returns. -/
inductive SendError where
  | noReceivers
deriving DecidableEq, Repr

/-- tokio broadcast `Sender::send`: fails if and only if there is currently no
live receiver; otherwise the event is stored for every live receiver. -/
def busSend (s : BusState) (e : ControllerEvent) : Except SendError BusState :=
  if s.receiverCount = 0 then .error .noReceivers
  else .ok { s with history := s.history ++ [e] }

/-- `.unwrap()` on a send result: returns the new state, or panics on error. -/
def sendUnwrapOutcome (r : Except SendError BusState) : CallOutcome BusState :=
  match r with
  | .ok s => .returned s
  | .error _ => .panicked

/-- The channel state of a live `LaunchpadMiniMk3`: the struct permanently
holds its own `event_receiver` field (line 20), created with the channel in
`guess` (line 28) and dropped only with the struct, so while the controller is
alive the receiver count is `others + 1` for some number `others` of
additional subscribers. -/
def aliveControllerBus (others : Nat) (history : List ControllerEvent) : BusState :=
  { receiverCount := others + 1, history := history }

/-! ## Helper lemmas -/

theorem countP_isPublish_map_lightAction (l : List (Nat × Nat × Nat)) :
    (l.map lightAction).countP isPublish = 0 := by
  rw [List.countP_eq_zero]
  intro a ha
  rcases List.mem_map.mp ha with ⟨u, _, rfl⟩
  simp [lightAction, isPublish]

theorem filter_isLight_map_lightAction (l : List (Nat × Nat × Nat)) :
    (l.map lightAction).filter isLight = l.map lightAction := by
  rw [List.filter_eq_self]
  intro a ha
  rcases List.mem_map.mp ha with ⟨u, _, rfl⟩
  simp [lightAction, isLight]

theorem runLoopCalls_count_init (polls : List PollResult)
    (h : PollResult.closed ∉ polls) :
    (runLoopCalls polls).count ScriptCall.init = polls.countP isLagged := by
  induction polls with
  | nil => rfl
  | cons a rest ih =>
    have ha : a ≠ PollResult.closed := fun hc => h (hc ▸ List.mem_cons_self a rest)
    have hrest : PollResult.closed ∉ rest := fun hc => h (List.mem_cons_of_mem a hc)
    cases a with
    | ok e =>
      cases e <;>
        simp [runLoopCalls, List.count_cons, List.countP_cons, isLagged, ih hrest]
    | empty => simp [runLoopCalls, List.countP_cons, isLagged, ih hrest]
    | closed => exact absurd rfl ha
    | lagged n =>
      simp [runLoopCalls, List.count_cons, List.countP_cons, isLagged, ih hrest]

theorem runResult_ne_error (polls : List PollResult) (e : MidiError) :
    runResult polls ≠ some (Except.error e) := by
  induction polls with
  | nil => simp [runResult]
  | cons a rest ih => cases a <;> simp [runResult, ih]

theorem runLoopCalls_stops_at_closed (pre post : List PollResult) :
    runLoopCalls (pre ++ PollResult.closed :: post) =
      runLoopCalls (pre ++ [PollResult.closed]) := by
  induction pre with
  | nil => rfl
  | cons a rest ih =>
    cases a with
    | ok e => cases e <;> simp [runLoopCalls, ih]
    | empty => simp [runLoopCalls, ih]
    | closed => rfl
    | lagged n => simp [runLoopCalls, ih]

theorem runResult_closed_append (pre post : List PollResult) :
    runResult (pre ++ PollResult.closed :: post) = some (Except.ok ()) := by
  induction pre with
  | nil => rfl
  | cons a rest ih => cases a <;> simp [runResult, ih]

theorem iterationActions_no_lock_actions (m : Option MidiMessage) :
    (iterationActions m).count LoopAction.acquireInputLock = 0 ∧
    (iterationActions m).count LoopAction.releaseInputLock = 0 ∧
    (iterationActions m).count LoopAction.awaitPoint = 0 := by
  rcases m with _ | msg
  · exact ⟨rfl, rfl, rfl⟩
  · rcases msg with b | b | _
    · rcases b with ⟨x, y⟩ | i <;>
        simp [iterationActions, translateMessage, Option.toList,
          List.count_cons, List.count_append]
    · rcases b with ⟨x, y⟩ | i <;>
        simp [iterationActions, translateMessage, Option.toList,
          List.count_cons, List.count_append]
    · simp [iterationActions, translateMessage, Option.toList, List.count_cons]

theorem count_map_deviceLightAction_eq_zero (l : List (Nat × Nat × Nat))
    (a : LoopAction) (h : ∀ u : Nat × Nat × Nat, deviceLightAction u ≠ a) :
    (l.map deviceLightAction).count a = 0 := by
  rw [List.count_eq_zero]
  intro hmem
  rcases List.mem_map.mp hmem with ⟨u, _, hu⟩
  exact h u hu

theorem inputLoopBody_no_lock_actions (polls : List (Option MidiMessage)) :
    (inputLoopBody polls).count LoopAction.acquireInputLock = 0 ∧
    (inputLoopBody polls).count LoopAction.releaseInputLock = 0 ∧
    (inputLoopBody polls).count LoopAction.awaitPoint = 0 := by
  induction polls with
  | nil => exact ⟨rfl, rfl, rfl⟩
  | cons m rest ih =>
    have hm := iterationActions_no_lock_actions m
    simp [inputLoopBody, List.count_append, hm.1, hm.2.1, hm.2.2,
      ih.1, ih.2.1, ih.2.2]

/-! ## Claim theorems -/

/-- Claim C1: over the full u8 range, the input loop maps control-button index
i in 0..=7 to normalized (i, 0) and i in 8..=255 to (8, i - 7); the mapping is
total (it is a function defined on every index, with no crash and no
underflow, since the subtracting branch only sees i ≥ 8), and the very same
mapping is applied for Press and for Release messages. -/
theorem c1_control_button_mapping (i : Nat) (h : i < 256) :
    (i ≤ 7 → controlTranslate i = (i, 0)) ∧
    (8 ≤ i → controlTranslate i = (8, i - 7)) ∧
    translateMessage (.press (.controlButton i)) =
      some (.press (controlTranslate i).1 (controlTranslate i).2) ∧
    translateMessage (.release (.controlButton i)) =
      some (.release (controlTranslate i).1 (controlTranslate i).2) := by
  refine ⟨fun hi => by simp [controlTranslate, hi], fun hi => ?_, rfl, rfl⟩
  have hn : ¬ i ≤ 7 := by omega
  simp [controlTranslate, hn]

/-- Witness for C1 at the concrete index 10. -/
theorem c1_witness :
    (10 : Nat) < 256 ∧ 8 ≤ (10 : Nat) ∧ controlTranslate 10 = (8, 3) :=
  ⟨by decide, by decide, by
    simpa using (c1_control_button_mapping 10 (by decide)).2.1 (by decide)⟩

/-- Claim C2: on valid grid coordinates, the input-direction translation sends
native (x, y) to normalized (x, y + 1), and the output-direction translation
sends that normalized coordinate back to grid button (x, y): the output
translation is the inverse of the input translation on the grid branch. -/
theorem c2_grid_round_trip (x y : Nat) (hy : y ≤ 7) :
    translateMessage (.press (.gridButton x y)) =
      some (.press x ((y + 1) % 256)) ∧
    translateMessage (.release (.gridButton x y)) =
      some (.release x ((y + 1) % 256)) ∧
    buttonForOutput x ((y + 1) % 256) = Button.gridButton x y := by
  refine ⟨rfl, rfl, ?_⟩
  have h1 : (y + 1) % 256 = y + 1 := Nat.mod_eq_of_lt (by omega)
  simp [buttonForOutput, h1]

/-- Witness for C2 at the concrete grid coordinate (3, 5). -/
theorem c2_witness :
    (5 : Nat) ≤ 7 ∧ buttonForOutput 3 ((5 + 1) % 256) = Button.gridButton 3 5 :=
  ⟨by decide, (c2_grid_round_trip 3 5 (by decide)).2.2⟩

/-- Claim C3: for every update list, `set_button_color_multi` performs exactly
one event publication, it is the head of the trace (before any device I/O), it
carries the whole update list in a single `LightUpdate`, and the device
actions that follow are exactly the per-update light operations in list order;
on the concrete list [(0,0,1), (1,1,0)] this is one `LightUpdate` with both
updates, then lighting with color index 1 (white) and then color index 0
(black). -/
theorem c3_multi_one_event_then_device_order :
    (∀ updates : List (Nat × Nat × Nat),
        (setButtonColorMultiTrace updates).head? =
          some (OutAction.publish (ControllerEvent.lightUpdate updates)) ∧
        (setButtonColorMultiTrace updates).countP isPublish = 1 ∧
        (setButtonColorMultiTrace updates).filter isLight = updates.map lightAction) ∧
    setButtonColorMultiTrace [(0, 0, 1), (1, 1, 0)] =
      [OutAction.publish (ControllerEvent.lightUpdate [(0, 0, 1), (1, 1, 0)]),
       OutAction.light (Button.controlButton 0) PaletteColor.white,
       OutAction.light (Button.gridButton 1 0) PaletteColor.black] := by
  refine ⟨fun updates => ⟨rfl, ?_, ?_⟩, by decide⟩
  · show (OutAction.publish (ControllerEvent.lightUpdate updates) ::
        updates.map lightAction).countP isPublish = 1
    rw [List.countP_cons, countP_isPublish_map_lightAction]
    simp [isPublish]
  · show (OutAction.publish (ControllerEvent.lightUpdate updates) ::
        updates.map lightAction).filter isLight = updates.map lightAction
    rw [List.filter_cons, filter_isLight_map_lightAction]
    simp [isLight]

/-- Counterexample to claim C4: in the scenario clear(), then subscribe(),
then set_button_color(3,2,4), the subscription is created after `ClearBoard`
was already sent, so the events it receives are not
[ClearBoard, LightUpdate [(3,2,4)]]. -/
theorem c4_counterexample :
    EventBus.receivedFrom (setButtonColorPublish (clearPublish ⟨[]⟩) 3 2 4)
        (EventBus.subscribePos (clearPublish ⟨[]⟩)) ≠
      [ControllerEvent.clearBoard, ControllerEvent.lightUpdate [(3, 2, 4)]] := by
  decide

/-- Claim C4 as amended: in the scenario clear(), then subscribe(), then
set_button_color(3,2,4), the new subscription receives exactly one
`LightUpdate` with the single update (3,2,4) and nothing else; the
`ClearBoard` published by clear() precedes the subscription's creation, and a
receiver obtained by resubscribe only observes events sent after it was
created. -/
theorem c4_new_subscription_gets_light_update_only :
    EventBus.receivedFrom (setButtonColorPublish (clearPublish ⟨[]⟩) 3 2 4)
        (EventBus.subscribePos (clearPublish ⟨[]⟩)) =
      [ControllerEvent.lightUpdate [(3, 2, 4)]] := by
  decide

/-- Counterexample to claim C5: when the device clear fails, `initialize` does
not return the error to its caller — line 54 is `self.clear().unwrap()`, so
the call panics instead. -/
theorem c5_counterexample :
    initController (Except.error MidiError.deviceError) = CallOutcome.panicked ∧
    initController (Except.error MidiError.deviceError) ≠
      CallOutcome.returned (Except.error MidiError.deviceError) := by
  refine ⟨rfl, ?_⟩
  simp [initController]

/-- Claim C5 as amended: `initialize` first clears the device; when the clear
fails it panics (the unwrap at line 54) rather than returning the MidiError;
when the clear succeeds it spawns the input loop (the spawn itself cannot
fail) and returns Ok immediately, without waiting for the loop. -/
theorem c5_init_panics_on_clear_failure :
    (∀ e : MidiError, initController (.error e) = CallOutcome.panicked) ∧
    initController (.ok ()) = CallOutcome.returned (Except.ok ()) :=
  ⟨fun _ => rfl, rfl⟩

/-- Claim C6: over any observation of the runner loop that contains no Closed
signal, the number of `script.initialize` calls is one (the entry call) plus
exactly one per Lagged signal — the lag-triggered recursion re-enters `run`,
which calls initialize again exactly once and resubscribes — and lag is never
escalated into an error returned by `run` (the returned value is never an
error for any observation). -/
theorem c6_lag_restarts_init_exactly_once (polls : List PollResult)
    (h : PollResult.closed ∉ polls) :
    (runCalls polls).count ScriptCall.init = 1 + polls.countP isLagged ∧
    ∀ e : MidiError, runResult polls ≠ some (Except.error e) := by
  constructor
  · simp [runCalls, List.count_cons, runLoopCalls_count_init polls h]
    omega
  · exact fun e => runResult_ne_error polls e

/-- Witness for C6 on a concrete observation with two lag signals. -/
theorem c6_witness :
    PollResult.closed ∉ [PollResult.lagged 3, PollResult.empty, PollResult.lagged 1] ∧
    ((runCalls [PollResult.lagged 3, PollResult.empty, PollResult.lagged 1]).count
        ScriptCall.init =
      1 + [PollResult.lagged 3, PollResult.empty, PollResult.lagged 1].countP isLagged ∧
     ∀ e : MidiError,
       runResult [PollResult.lagged 3, PollResult.empty, PollResult.lagged 1] ≠
         some (Except.error e)) :=
  ⟨by decide,
   c6_lag_restarts_init_exactly_once
     [PollResult.lagged 3, PollResult.empty, PollResult.lagged 1] (by decide)⟩

/-- Claim C7: a Closed signal makes the runner loop break — the callback trace
is unaffected by anything after the Closed, so no further on_press/on_release
reaches the script — and `run` returns Ok; Press events dispatch `on_press`,
Release events dispatch `on_release`, and every other event kind is observed
without dispatching to the script. -/
theorem c7_closed_terminates_run_ok :
    (∀ pre post, runLoopCalls (pre ++ PollResult.closed :: post) =
        runLoopCalls (pre ++ [PollResult.closed])) ∧
    (∀ pre post,
        runResult (pre ++ PollResult.closed :: post) = some (Except.ok ())) ∧
    (∀ x y rest, runLoopCalls (PollResult.ok (ControllerEvent.press x y) :: rest) =
        ScriptCall.onPress x y :: runLoopCalls rest) ∧
    (∀ x y rest, runLoopCalls (PollResult.ok (ControllerEvent.release x y) :: rest) =
        ScriptCall.onRelease x y :: runLoopCalls rest) ∧
    (∀ rest, runLoopCalls (PollResult.ok ControllerEvent.clearBoard :: rest) =
        runLoopCalls rest) ∧
    (∀ u rest, runLoopCalls (PollResult.ok (ControllerEvent.lightUpdate u) :: rest) =
        runLoopCalls rest) ∧
    (∀ rest, runLoopCalls (PollResult.ok ControllerEvent.heartbeat :: rest) =
        runLoopCalls rest) :=
  ⟨runLoopCalls_stops_at_closed, runResult_closed_append,
   fun _ _ _ => rfl, fun _ _ _ => rfl, fun _ => rfl, fun _ _ => rfl, fun _ => rfl⟩

set_option maxRecDepth 8192 in
/-- Claim C8: the palette mapping is a pure total function on the whole u8
range with no error case: index 0 is off (black), indices 1..=8 are pairwise
distinct named colors different from off, and every index from 9 to 255 falls
back to off. -/
theorem c8_palette_total_with_black_fallback :
    toDeviceColor 0 = PaletteColor.black ∧
    ([1, 2, 3, 4, 5, 6, 7, 8].map toDeviceColor).Nodup ∧
    (∀ c ∈ [1, 2, 3, 4, 5, 6, 7, 8], toDeviceColor c ≠ PaletteColor.black) ∧
    (∀ i : Fin 256, 9 ≤ i.val → toDeviceColor i.val = PaletteColor.black) := by
  decide

/-- Witness for C8 at the concrete unmapped index 42. -/
theorem c8_witness :
    9 ≤ (42 : Fin 256).val ∧ toDeviceColor (42 : Fin 256).val = PaletteColor.black :=
  ⟨by decide, c8_palette_total_with_black_fallback.2.2.2 42 (by decide)⟩

/-- Counterexample to claim C9: the input-handle lock is not scoped tightly
around each read. If it were, a trace with two reads would contain one acquire
and one release per read; the actual trace of two loop iterations acquires the
lock once (before the loop, line 62) and never releases it. -/
theorem c9_counterexample :
    ¬ ((inputLoopTrace [none, none]).count LoopAction.acquireInputLock =
        (inputLoopTrace [none, none]).countP isPollRead ∧
       (inputLoopTrace [none, none]).count LoopAction.releaseInputLock =
        (inputLoopTrace [none, none]).countP isPollRead) := by
  decide

/-- Claim C9 as amended: the Input Loop acquires the input-handle lock exactly
once, before its read loop, and holds it for the lifetime of the loop — never
releasing it, no matter how many reads occur — although it is never held
across a suspension point, since the loop body contains no await; the output
path (clear and set_button_color/set_button_color_multi, for every update
list) takes and releases the output lock once per synchronous call, releasing
it at the end of the call before control can yield, with no await while it is
held. -/
theorem c9_input_lock_held_for_loop_lifetime :
    (∀ polls, (inputLoopTrace polls).count LoopAction.acquireInputLock = 1 ∧
        (inputLoopTrace polls).count LoopAction.releaseInputLock = 0 ∧
        (inputLoopTrace polls).count LoopAction.awaitPoint = 0) ∧
    (clearCallActions.count LoopAction.acquireOutputLock = 1 ∧
     clearCallActions.count LoopAction.releaseOutputLock = 1 ∧
     clearCallActions.getLast? = some LoopAction.releaseOutputLock ∧
     clearCallActions.count LoopAction.awaitPoint = 0) ∧
    ∀ updates,
      (multiCallActions updates).count LoopAction.acquireOutputLock = 1 ∧
      (multiCallActions updates).count LoopAction.releaseOutputLock = 1 ∧
      (multiCallActions updates).getLast? = some LoopAction.releaseOutputLock ∧
      (multiCallActions updates).count LoopAction.awaitPoint = 0 := by
  refine ⟨fun polls => ?_, ⟨by decide, by decide, by decide, by decide⟩,
    fun updates => ?_⟩
  · have h := inputLoopBody_no_lock_actions polls
    simp [inputLoopTrace, List.count_cons, h.1, h.2.1, h.2.2]
  · have hacq := count_map_deviceLightAction_eq_zero updates
      LoopAction.acquireOutputLock (fun u => by simp [deviceLightAction])
    have hrel := count_map_deviceLightAction_eq_zero updates
      LoopAction.releaseOutputLock (fun u => by simp [deviceLightAction])
    have haw := count_map_deviceLightAction_eq_zero updates
      LoopAction.awaitPoint (fun u => by simp [deviceLightAction])
    refine ⟨?_, ?_, ?_, ?_⟩
    · simp [multiCallActions, List.count_append, List.count_cons, hacq]
    · simp [multiCallActions, List.count_append, List.count_cons, hrel]
    · have hsplit : multiCallActions updates =
          ([.acquireOutputLock, .acquireSenderLock,
            .sendOnBus (.lightUpdate updates), .releaseSenderLock] ++
            updates.map deviceLightAction) ++ [.releaseOutputLock] := by
        simp [multiCallActions]
      rw [hsplit, List.getLast?_concat]
    · simp [multiCallActions, List.count_append, List.count_cons, haw]

/-- Claim C10: while a `LaunchpadMiniMk3` is alive, the broadcast channel has
at least its own `event_receiver` among the live receivers, so the `send`
calls unwrapped in clear() and set_button_color_multi() can never return the
no-receivers error, and the unwraps can never panic, whatever other
subscribers exist, whatever the history, and whatever the update list. -/
theorem c10_send_unwrap_never_panics :
    ∀ (others : Nat) (history : List ControllerEvent)
      (updates : List (Nat × Nat × Nat)),
      sendUnwrapOutcome
          (busSend (aliveControllerBus others history) ControllerEvent.clearBoard) ≠
        CallOutcome.panicked ∧
      sendUnwrapOutcome
          (busSend (aliveControllerBus others history)
            (ControllerEvent.lightUpdate updates)) ≠
        CallOutcome.panicked := by
  intro others history updates
  constructor <;> simp [aliveControllerBus, busSend, sendUnwrapOutcome]

end Launchpi
